import Mathlib

/-!
Shallow embedding of the hft-backtest repository core: the strategy
controller state machine, the generic runner's speed schedule and
per-file loop skeleton, the market-making pricing engine (reservation
price, micro-price, order-book imbalance), layered order placement,
the order tracker, and the risk manager's order sizing.

Machine floats (`f64`) are modelled by the rationals `ℚ`; `i64` ticks by
`ℤ` with the explicit sentinel constants the source compares against;
`u64`/`usize` counters by `ℕ`.  Casts `as u64`/`as usize` of nonnegative
floats truncate toward zero and saturate at 0, which `Nat.floor` /
`Nat.ceil` on `ℚ` reproduce.
-/

namespace HftBacktest

/-- Control state of a strategy session (src/controller/commands.rs,
`ControlState`). -/
inductive ControlState where
  | Running
  | Paused
  | Stopped
  | Completed
deriving DecidableEq, Repr

/-- Commands sent from the UI to the controller, exactly the variants
matched by `StrategyController::handle_command`
(src/controller/strategy_controller.rs:97-135). -/
inductive StrategyCommand where
  | Start
  | Pause
  | Stop
  | SetSpeed (speed : ℚ)
  | ChangeFiles (files : List String)
  | Skip
  | Reset
deriving DecidableEq, Repr

/-- Responses sent back to the UI, the variants emitted by
`handle_command` and `mark_completed`. -/
inductive ControlResponse where
  | StateChanged (s : ControlState)
  | SpeedChanged (speed : ℚ)
  | FilesChanged (files : List String)
  | Skipped
  | Error (msg : String)
  | Completed
deriving DecidableEq, Repr

/-- The controller's mutable shared state: the `state`, `should_stop`,
`should_skip` and `speed_multiplier` atomics of `StrategyController`
(src/controller/strategy_controller.rs:9-21), with the f64 bit-pattern
encoding of the speed elided (the stored value is read back unchanged). -/
structure ControllerState where
  state : ControlState
  should_stop : Bool
  should_skip : Bool
  speed_multiplier : ℚ
deriving DecidableEq, Repr

/-- Initial controller state from `StrategyController::new`:
Paused, not stopping, not skipping, speed 1.0. -/
def ControllerState.init : ControllerState :=
  { state := ControlState.Paused
    should_stop := false
    should_skip := false
    speed_multiplier := 1 }

/-- Rust `f64::clamp(self, min, max)`: `min` if below, `max` if above,
the value itself otherwise (NaN elided by the rational model). -/
def rustClamp (x lo hi : ℚ) : ℚ :=
  if x < lo then lo else if x > hi then hi else x

/-- Embedding of `StrategyController::handle_command`
(src/controller/strategy_controller.rs:97-135): each arm updates the
shared atomics and performs exactly one `response_tx.send`, modelled as
a singleton response list. -/
def handle_command (c : ControllerState) :
    StrategyCommand → ControllerState × List ControlResponse
  | StrategyCommand.Start =>
      ({ c with state := ControlState.Running, should_stop := false },
       [ControlResponse.StateChanged ControlState.Running])
  | StrategyCommand.Pause =>
      ({ c with state := ControlState.Paused },
       [ControlResponse.StateChanged ControlState.Paused])
  | StrategyCommand.Stop =>
      ({ c with state := ControlState.Stopped, should_stop := true },
       [ControlResponse.StateChanged ControlState.Stopped])
  | StrategyCommand.SetSpeed speed =>
      let clamped_speed := rustClamp speed (1/100) 100
      ({ c with speed_multiplier := clamped_speed },
       [ControlResponse.SpeedChanged clamped_speed])
  | StrategyCommand.ChangeFiles files =>
      (c, [ControlResponse.FilesChanged files])
  | StrategyCommand.Skip =>
      ({ c with should_skip := true },
       [ControlResponse.Skipped])
  | StrategyCommand.Reset =>
      ({ c with state := ControlState.Paused, should_stop := false,
                should_skip := false, speed_multiplier := 1 },
       [ControlResponse.StateChanged ControlState.Paused])

/-- Embedding of `calculate_speed_params`
(src/strategy/base/runner_base.rs:214-224): maps the speed multiplier to
(iterations per loop, loop delay in whole milliseconds).  The source's
`(speed / 10.0).ceil() as usize` and `(10.0 / speed) as u64` truncate
toward zero and saturate below at 0, which `Nat.ceil` / `Nat.floor` on
`ℚ` reproduce; the source's final two branches have identical bodies and
are kept separate here as well. -/
def calculate_speed_params (speed : ℚ) : ℕ × ℕ :=
  if speed ≥ 100 then
    (100, 0)
  else if speed ≥ 10 then
    (⌈speed / 10⌉₊, 1)
  else if speed ≥ 1 then
    (1, ⌊10 / speed⌋₊)
  else
    (1, ⌊10 / speed⌋₊)

/-- Embedding of `SpreadCalculator::calculate_reservation_price`
(src/strategy/market_maker/spread.rs:10-17):
`mid_price - inventory * gamma * volatility.powi(2)`. -/
def calculate_reservation_price (gamma mid_price inventory volatility : ℚ) : ℚ :=
  mid_price - inventory * gamma * volatility ^ 2

/-- Environment of one iteration of the `run_single_file` loop
(src/strategy/base/runner_base.rs:112-199), abstracting the controller
and simulator interactions the iteration observes: whether `should_stop`
becomes true while waiting in the Paused sub-loop, whether the 16 ms
command-check cadence fires, whether `should_stop` is observed true at
that check, and whether `hbt.elapse` reports end-of-data (or an error)
inside the tick batch. -/
structure IterInput where
  stop_in_pause : Bool
  check_commands : Bool
  stop_at_check : Bool
  batch_hits_end : Bool
deriving DecidableEq, Repr

/-- The three ways the `run_single_file` loop terminates: the
`data_ended` branch (which invokes `on_file_end` then breaks), the
`return Ok(())` inside the pause-wait when `should_stop` is set, and the
`break` after the cadence command check observes `should_stop`. -/
inductive ExitPath where
  | normalEnd
  | stopInPause
  | stopAtCheck
deriving DecidableEq, Repr

/-- Observable outcome of a terminating run of the per-file loop: how
many times `self.strategy.on_file_end(&state)` was invoked, and through
which exit the loop left. -/
structure RunOutcome where
  on_file_end_calls : ℕ
  exit_path : ExitPath
deriving DecidableEq, Repr

/-- Embedding of the control skeleton of `StrategyRunner::run_single_file`
(src/strategy/base/runner_base.rs:112-199), driven by a script of
per-iteration inputs.  Each iteration, in source order: if `data_ended`
invoke `on_file_end` and break; else if `should_stop` fires during the
pause-wait, return (no `on_file_end`); else if the command-check cadence
fires and observes `should_stop`, break (no `on_file_end`); else run the
tick batch, which may set `data_ended` for the next iteration.  `none`
means the script ran out before the loop exited. -/
def run_single_file_loop : List IterInput → Bool → ℕ → Option RunOutcome
  | [], _, _ => none
  | it :: rest, data_ended, calls =>
    if data_ended then
      some ⟨calls + 1, ExitPath.normalEnd⟩
    else if it.stop_in_pause then
      some ⟨calls, ExitPath.stopInPause⟩
    else if it.check_commands && it.stop_at_check then
      some ⟨calls, ExitPath.stopAtCheck⟩
    else
      run_single_file_loop rest (data_ended || it.batch_hits_end) calls

/-- Sentinel for an absent best bid (`i64::MIN` in the source). -/
def I64_MIN : ℤ := -(2 ^ 63)

/-- Sentinel for an absent best ask (`i64::MAX` in the source). -/
def I64_MAX : ℤ := 2 ^ 63 - 1

/-- Read-only view of the market depth used by the pricing engine:
the `MarketDepth` trait methods `tick_size`, `best_bid_tick`,
`best_ask_tick`, `bid_qty_at_tick`, `ask_qty_at_tick`. -/
structure Depth where
  tick_size : ℚ
  best_bid_tick : ℤ
  best_ask_tick : ℤ
  bid_qty_at_tick : ℤ → ℚ
  ask_qty_at_tick : ℤ → ℚ

/-- Aggregated bid volume over `depth_levels` levels below the best bid:
the `bid_volume` accumulation loop shared by
`MicroPriceCalculator::calculate` and `OrderBookImbalance::calculate`
(src/strategy/market_maker/pricing.rs:45-61 and 91-103); a level
contributes only when its quantity is strictly positive. -/
def aggBidVolume (d : Depth) (depth_levels : ℕ) : ℚ :=
  (List.range depth_levels).foldl
    (fun acc (level : ℕ) =>
      let bid_qty := d.bid_qty_at_tick (d.best_bid_tick - (level : ℤ))
      if bid_qty > 0 then acc + bid_qty else acc) 0

/-- Aggregated ask volume over `depth_levels` levels above the best ask,
the `ask_volume` accumulation loop of the same two functions. -/
def aggAskVolume (d : Depth) (depth_levels : ℕ) : ℚ :=
  (List.range depth_levels).foldl
    (fun acc (level : ℕ) =>
      let ask_qty := d.ask_qty_at_tick (d.best_ask_tick + (level : ℤ))
      if ask_qty > 0 then acc + ask_qty else acc) 0

/-- Embedding of `OrderBookImbalance::calculate`
(src/strategy/market_maker/pricing.rs:83-110): 0 on the sentinel book,
0 when the aggregated volume is zero, otherwise
`(bid_volume - ask_volume) / (bid_volume + ask_volume)`. -/
def imbalance_calculate (depth_levels : ℕ) (d : Depth) : ℚ :=
  if d.best_bid_tick = I64_MIN ∨ d.best_ask_tick = I64_MAX then 0
  else
    let bid_volume := aggBidVolume d depth_levels
    let ask_volume := aggAskVolume d depth_levels
    if bid_volume + ask_volume = 0 then 0
    else (bid_volume - ask_volume) / (bid_volume + ask_volume)

/-- Embedding of `MicroPriceCalculator::calculate`
(src/strategy/market_maker/pricing.rs:12-75): 0 on the sentinel book,
the tick midpoint when the aggregated volume is zero, otherwise the
volume-weighted price crossing each side's best price with the opposite
side's aggregated volume. -/
def micro_price_calculate (depth_levels : ℕ) (d : Depth) : ℚ :=
  if d.best_bid_tick = I64_MIN ∨ d.best_ask_tick = I64_MAX then 0
  else
    let bid_volume := aggBidVolume d depth_levels
    let ask_volume := aggAskVolume d depth_levels
    if bid_volume + ask_volume = 0 then
      ((d.best_bid_tick : ℚ) + (d.best_ask_tick : ℚ)) * d.tick_size / 2
    else
      let best_bid_price := (d.best_bid_tick : ℚ) * d.tick_size
      let best_ask_price := (d.best_ask_tick : ℚ) * d.tick_size
      (bid_volume * best_ask_price + ask_volume * best_bid_price) /
        (bid_volume + ask_volume)

/-- One layer's computed bid price, ask price and order size. -/
structure LayerQuote where
  bid_price : ℚ
  ask_price : ℚ
  size : ℚ
deriving DecidableEq, Repr

/-- Per-layer quote computation of `MarketMakerRunner::place_initial_orders`
(src/strategy/market_maker/market_maker_runner.rs:309-385) and of the
resubmission loop in `MarketMakerRunner::check_and_refill_orders`
(src/strategy/market_maker/market_maker_runner.rs:259-303), which share
the same formulas: `imbalance_adjustment = imbalance * half_spread * 0.1`,
`layer_offset = layer * 1.0 * tick_size`,
`bid_price = reservation - half_spread - layer_offset + imbalance_adjustment`,
`ask_price = reservation + half_spread + layer_offset - imbalance_adjustment`,
`layer_size = order_size / (1.0 + layer * 0.5)` (for the refill loop
`order_size` is the risk-adjusted size). -/
def mm_runner_layer_quote (reservation_price half_spread tick_size
    imbalance order_size : ℚ) (layer : ℕ) : LayerQuote :=
  let imbalance_adjustment := imbalance * half_spread * (1/10)
  let layer_offset := (layer : ℚ) * 1 * tick_size
  { bid_price := reservation_price - half_spread - layer_offset + imbalance_adjustment
    ask_price := reservation_price + half_spread + layer_offset - imbalance_adjustment
    size := order_size / (1 + (layer : ℚ) * (1/2)) }

/-- Per-layer quote computation of `OrderManager::place_layered_orders`
(src/strategy/market_maker/order_manager.rs:24-76):
`imbalance_adjustment = imbalance * half_spread * 0.2`,
`layer_offset = layer * layer_spacing * tick_size`, with the same signs
and size formula as the runner's placement. -/
def order_manager_layer_quote (reservation_price half_spread tick_size
    layer_spacing imbalance order_size : ℚ) (layer : ℕ) : LayerQuote :=
  let imbalance_adjustment := imbalance * half_spread * (2/10)
  let layer_offset := (layer : ℚ) * layer_spacing * tick_size
  { bid_price := reservation_price - half_spread - layer_offset + imbalance_adjustment
    ask_price := reservation_price + half_spread + layer_offset - imbalance_adjustment
    size := order_size / (1 + (layer : ℚ) * (1/2)) }

/-- Per-layer quote as the spec's words describe it (for comparison with
the source embedding): bid = reservation − half_spread − L·tick − offset,
ask = reservation + half_spread + L·tick + offset, with
offset = imbalance · half_spread · 0.1 and size = base / (1 + 0.5·L). -/
def spec_layer_quote (reservation_price half_spread tick_size
    imbalance order_size : ℚ) (layer : ℕ) : LayerQuote :=
  let offset := imbalance * half_spread * (1/10)
  { bid_price := reservation_price - half_spread - (layer : ℚ) * tick_size - offset
    ask_price := reservation_price + half_spread + (layer : ℚ) * tick_size + offset
    size := order_size / (1 + (1/2) * (layer : ℚ)) }

/-- Order side (src/strategy/market_maker/order_tracker.rs,
`OrderSide`). -/
inductive OrderSide where
  | Buy
  | Sell
deriving DecidableEq, Repr

/-- Tracked order record (src/strategy/market_maker/order_tracker.rs,
`OrderInfo`). -/
structure OrderInfo where
  order_id : ℕ
  side : OrderSide
  price : ℚ
  qty : ℚ
  layer : ℕ
deriving DecidableEq, Repr

/-- Embedding of `OrderTracker`
(src/strategy/market_maker/order_tracker.rs:5-11): the
`HashMap<u64, OrderInfo>` of active orders is modelled as an association
list holding at most one entry per key (insertion removes any previous
binding first, matching `HashMap::insert` replacement semantics). -/
structure OrderTracker where
  active_orders : List (ℕ × OrderInfo)
  filled_count : ℕ
  total_buy_volume : ℚ
  total_sell_volume : ℚ
deriving DecidableEq, Repr

/-- Embedding of `OrderTracker::new`. -/
def OrderTracker.new : OrderTracker :=
  { active_orders := []
    filled_count := 0
    total_buy_volume := 0
    total_sell_volume := 0 }

/-- Embedding of `OrderTracker::register_order`
(src/strategy/market_maker/order_tracker.rs:41-49):
`self.active_orders.insert(order_id, OrderInfo { .. })`. -/
def OrderTracker.register_order (t : OrderTracker) (order_id : ℕ)
    (side : OrderSide) (price qty : ℚ) (layer : ℕ) : OrderTracker :=
  { t with active_orders :=
      (order_id, ⟨order_id, side, price, qty, layer⟩) ::
        t.active_orders.filter (fun p => p.1 ≠ order_id) }

/-- Embedding of `OrderTracker::mark_filled`
(src/strategy/market_maker/order_tracker.rs:52-66): remove the record if
present, bump `filled_count`, add the quantity to the side's cumulative
volume and return the record; return `None` and leave the tracker
untouched otherwise. -/
def OrderTracker.mark_filled (t : OrderTracker) (order_id : ℕ) :
    Option OrderInfo × OrderTracker :=
  match t.active_orders.find? (fun p => p.1 = order_id) with
  | some (_, info) =>
      (some info,
       { active_orders := t.active_orders.filter (fun p => p.1 ≠ order_id)
         filled_count := t.filled_count + 1
         total_buy_volume :=
           if info.side = OrderSide.Buy then t.total_buy_volume + info.qty
           else t.total_buy_volume
         total_sell_volume :=
           if info.side = OrderSide.Sell then t.total_sell_volume + info.qty
           else t.total_sell_volume })
  | none => (none, t)

/-- Embedding of `OrderTracker::get_stats`
(src/strategy/market_maker/order_tracker.rs:69-76):
(filled_count, total_buy_volume, total_sell_volume, active order count). -/
def OrderTracker.get_stats (t : OrderTracker) : ℕ × ℚ × ℚ × ℕ :=
  (t.filled_count, t.total_buy_volume, t.total_sell_volume,
   t.active_orders.length)

/-- Embedding of `OrderTracker::has_order`
(src/strategy/market_maker/order_tracker.rs:79-81). -/
def OrderTracker.has_order (t : OrderTracker) (order_id : ℕ) : Bool :=
  t.active_orders.any (fun p => p.1 = order_id)

/-- Embedding of `RiskManager::adjust_order_size`
(src/strategy/market_maker/risk_manager.rs:50-57), with the
`max_inventory` field passed explicitly: return `base_size` unchanged
when `max_inventory == 0`, otherwise shrink by up to half as
`|inventory| / max_inventory` (capped at 1) grows. -/
def adjust_order_size (max_inventory base_size inventory : ℚ) : ℚ :=
  if max_inventory = 0 then base_size
  else
    let inventory_frac := min (|inventory| / max_inventory) 1
    base_size * (1 - inventory_frac * (1/2))

/-- Concrete depth snapshot used to instantiate the pricing theorems:
best bid at tick 10000, best ask at tick 10002, tick size 0.01, with
quantity 2 resting at the best bid and quantity 4 at the best ask. -/
def exampleDepth : Depth :=
  { tick_size := 1/100
    best_bid_tick := 10000
    best_ask_tick := 10002
    bid_qty_at_tick := fun t => if t = 10000 then 2 else 0
    ask_qty_at_tick := fun t => if t = 10002 then 4 else 0 }

/-- Concrete one-sided depth snapshot (bids only) used to instantiate
the imbalance theorem. -/
def bidOnlyDepth : Depth :=
  { tick_size := 1/100
    best_bid_tick := 10000
    best_ask_tick := 10002
    bid_qty_at_tick := fun t => if t = 10000 then 3 else 0
    ask_qty_at_tick := fun _ => 0 }

theorem rustClamp_eq_max_min (x lo hi : ℚ) (h : lo ≤ hi) :
    rustClamp x lo hi = max lo (min x hi) := by
  unfold rustClamp
  split_ifs with h1 h2
  · have hm : min x hi ≤ x := min_le_left _ _
    exact (max_eq_left (by linarith)).symm
  · rw [min_eq_right (by linarith), max_eq_right h]
  · rw [min_eq_left (by linarith), max_eq_right (by linarith)]

/-- C1: every command received by the controller performs exactly the
state transition of the spec table and emits exactly one response:
Start sets Running and clears should_stop, Pause sets Paused, Stop sets
Stopped and should_stop, SetSpeed stores clamp(x, 0.01, 100.0) and
reports the clamped value, Skip sets should_skip, Reset restores
Paused / cleared flags / speed 1.0; no command is rejected in any
state (`handle_command` is total and every arm emits one response). -/
theorem C1_controller_command_table (c : ControllerState) (x : ℚ) :
    handle_command c StrategyCommand.Start =
      ({ c with state := ControlState.Running, should_stop := false },
       [ControlResponse.StateChanged ControlState.Running]) ∧
    handle_command c StrategyCommand.Pause =
      ({ c with state := ControlState.Paused },
       [ControlResponse.StateChanged ControlState.Paused]) ∧
    handle_command c StrategyCommand.Stop =
      ({ c with state := ControlState.Stopped, should_stop := true },
       [ControlResponse.StateChanged ControlState.Stopped]) ∧
    (handle_command c (StrategyCommand.SetSpeed x)).1.speed_multiplier
      = max (1/100) (min x 100) ∧
    (handle_command c (StrategyCommand.SetSpeed x)).2
      = [ControlResponse.SpeedChanged (max (1/100) (min x 100))] ∧
    (handle_command c (StrategyCommand.SetSpeed x)).1.state = c.state ∧
    handle_command c StrategyCommand.Skip =
      ({ c with should_skip := true }, [ControlResponse.Skipped]) ∧
    handle_command c StrategyCommand.Reset =
      ({ c with state := ControlState.Paused, should_stop := false,
                should_skip := false, speed_multiplier := 1 },
       [ControlResponse.StateChanged ControlState.Paused]) ∧
    (∀ cmd : StrategyCommand, ((handle_command c cmd).2).length = 1) := by
  have hclamp : rustClamp x (1/100) 100 = max (1/100) (min x 100) :=
    rustClamp_eq_max_min x (1/100) 100 (by norm_num)
  refine ⟨rfl, rfl, rfl, ?_, ?_, rfl, rfl, rfl, ?_⟩
  · exact hclamp
  · show [ControlResponse.SpeedChanged (rustClamp x (1/100) 100)] = _
    rw [hclamp]
  · intro cmd
    cases cmd <;> rfl

/-- C3: the reservation price equals
`mid_price - inventory * gamma * volatility^2`, is strictly decreasing
in inventory for fixed positive gamma and volatility, equals 100.01 at
mid 100.01 / inventory 0 / volatility 0, and equals 99.51 at mid
100.01 / inventory 5 / gamma 0.001 / volatility 10. -/
theorem C3_reservation_price (gamma mid_price volatility : ℚ) :
    (∀ inventory, calculate_reservation_price gamma mid_price inventory volatility
        = mid_price - inventory * gamma * volatility ^ 2) ∧
    (0 < gamma → 0 < volatility → ∀ i1 i2 : ℚ, i1 < i2 →
        calculate_reservation_price gamma mid_price i2 volatility
          < calculate_reservation_price gamma mid_price i1 volatility) ∧
    calculate_reservation_price gamma 100.01 0 0 = 100.01 ∧
    calculate_reservation_price (1/1000) 100.01 5 10 = 99.51 := by
  refine ⟨fun _ => rfl, ?_, by norm_num [calculate_reservation_price],
    by norm_num [calculate_reservation_price]⟩
  intro hg hv i1 i2 h12
  unfold calculate_reservation_price
  have hv2 : 0 < volatility ^ 2 := pow_pos hv 2
  have hgv : 0 < gamma * volatility ^ 2 := mul_pos hg hv2
  nlinarith

/-- C3 witness: strict decrease instantiated at gamma = 1, mid = 0,
volatility = 1, inventories 0 < 1. -/
theorem C3_reservation_price_witness :
    calculate_reservation_price 1 0 1 1 < calculate_reservation_price 1 0 0 1 :=
  (C3_reservation_price 1 0 1).2.1 (by norm_num) (by norm_num) 0 1 (by norm_num)

/-- C5 counterexample: at speed 3 the code's schedule is (1 tick, 3 ms),
but the claimed delay 10/speed = 10/3 ms is not 3 ms (the source
truncates `10.0 / speed` to a whole number of milliseconds via
`as u64`). -/
theorem C5_speed_params_counterexample :
    calculate_speed_params 3 = (1, 3) ∧ ((3 : ℚ) ≠ 10 / 3) := by
  constructor
  · unfold calculate_speed_params
    rw [if_neg (by norm_num), if_neg (by norm_num), if_pos (by norm_num)]
    have hfl : ⌊(10 : ℚ) / 3⌋₊ = 3 := by
      rw [Nat.floor_eq_iff (by positivity)]
      norm_num
    rw [hfl]
  · norm_num

/-- C5 (amended): speed ≥ 100 gives a 100-tick batch with no delay;
speed ∈ [10, 100) gives ⌈speed/10⌉ ticks with 1 ms delay; speed ∈
[0.01, 10) gives 1 tick with ⌊10/speed⌋ ms delay (the exact 10/speed
truncated to whole milliseconds); in particular speed 100 gives
(100, 0 ms) and speed 0.5 gives (1, 20 ms). -/
theorem C5_speed_schedule (speed : ℚ) :
    (100 ≤ speed → calculate_speed_params speed = (100, 0)) ∧
    (10 ≤ speed → speed < 100 →
      calculate_speed_params speed = (⌈speed / 10⌉₊, 1)) ∧
    (1/100 ≤ speed → speed < 10 →
      calculate_speed_params speed = (1, ⌊10 / speed⌋₊)) ∧
    calculate_speed_params 100 = (100, 0) ∧
    calculate_speed_params (1/2) = (1, 20) := by
  refine ⟨?_, ?_, ?_, ?_, ?_⟩
  · intro h
    unfold calculate_speed_params
    rw [if_pos (by linarith)]
  · intro h1 h2
    unfold calculate_speed_params
    rw [if_neg (by linarith), if_pos (by linarith)]
  · intro h1 h2
    unfold calculate_speed_params
    rw [if_neg (by linarith), if_neg (by linarith)]
    split_ifs <;> rfl
  · unfold calculate_speed_params
    rw [if_pos (by norm_num)]
  · unfold calculate_speed_params
    rw [if_neg (by norm_num), if_neg (by norm_num), if_neg (by norm_num)]
    have h20 : (10 : ℚ) / (1/2) = 20 := by norm_num
    rw [h20]
    norm_num

theorem run_single_file_loop_calls (inputs : List IterInput) :
    ∀ (data_ended : Bool) (calls : ℕ) (res : RunOutcome),
      run_single_file_loop inputs data_ended calls = some res →
      res.on_file_end_calls =
        if res.exit_path = ExitPath.normalEnd then calls + 1 else calls := by
  induction inputs with
  | nil =>
      intro data_ended calls res h
      simp [run_single_file_loop] at h
  | cons it rest ih =>
      intro data_ended calls res h
      unfold run_single_file_loop at h
      split_ifs at h with h1 h2 h3
      · injection h with h
        subst h
        simp
      · injection h with h
        subst h
        simp
      · injection h with h
        subst h
        simp
      · exact ih _ _ _ h

/-- C2: on every terminating execution of the per-file loop, the
end-of-data exit invokes `on_file_end` exactly once, and both stop exits
(during the pause wait or at the cadence command check) invoke it
never. -/
theorem C2_on_file_end_discipline (inputs : List IterInput) (res : RunOutcome)
    (h : run_single_file_loop inputs false 0 = some res) :
    (res.exit_path = ExitPath.normalEnd → res.on_file_end_calls = 1) ∧
    (res.exit_path ≠ ExitPath.normalEnd → res.on_file_end_calls = 0) := by
  have hc := run_single_file_loop_calls inputs false 0 res h
  constructor
  · intro he
    rw [hc, if_pos he]
  · intro he
    rw [hc, if_neg he]

/-- C2 witness: a two-iteration script whose first batch hits
end-of-data, exiting through the normal path with one `on_file_end`
call. -/
theorem C2_on_file_end_discipline_witness :
    ((RunOutcome.mk 1 ExitPath.normalEnd).exit_path = ExitPath.normalEnd →
      (RunOutcome.mk 1 ExitPath.normalEnd).on_file_end_calls = 1) ∧
    ((RunOutcome.mk 1 ExitPath.normalEnd).exit_path ≠ ExitPath.normalEnd →
      (RunOutcome.mk 1 ExitPath.normalEnd).on_file_end_calls = 0) :=
  C2_on_file_end_discipline
    [⟨false, false, false, true⟩, ⟨false, false, false, false⟩]
    (RunOutcome.mk 1 ExitPath.normalEnd) (by decide)

/-- C5 witness: the schedule instantiated at speeds 100, 50 and 0.5. -/
theorem C5_speed_schedule_witness :
    calculate_speed_params 100 = (100, 0) ∧
    calculate_speed_params 50 = (⌈(50 : ℚ) / 10⌉₊, 1) ∧
    calculate_speed_params (1/2) = (1, ⌊(10 : ℚ) / (1/2)⌋₊) :=
  ⟨(C5_speed_schedule 100).1 (by norm_num),
   (C5_speed_schedule 50).2.1 (by norm_num) (by norm_num),
   (C5_speed_schedule (1/2)).2.2.1 (by norm_num) (by norm_num)⟩

theorem foldl_pos_add_nonneg (f : ℕ → ℚ) :
    ∀ (l : List ℕ) (init : ℚ), 0 ≤ init →
      0 ≤ l.foldl (fun acc level => if f level > 0 then acc + f level else acc) init := by
  intro l
  induction l with
  | nil =>
      intro init h
      simpa using h
  | cons a t ih =>
      intro init h
      simp only [List.foldl_cons]
      apply ih
      split_ifs with hf
      · linarith
      · exact h

theorem aggBidVolume_nonneg (d : Depth) (n : ℕ) : 0 ≤ aggBidVolume d n := by
  unfold aggBidVolume
  exact foldl_pos_add_nonneg
    (fun level => d.bid_qty_at_tick (d.best_bid_tick - (level : ℤ))) (List.range n) 0 le_rfl

theorem aggAskVolume_nonneg (d : Depth) (n : ℕ) : 0 ≤ aggAskVolume d n := by
  unfold aggAskVolume
  exact foldl_pos_add_nonneg
    (fun level => d.ask_qty_at_tick (d.best_ask_tick + (level : ℤ))) (List.range n) 0 le_rfl

theorem imbalance_calculate_cases (depth_levels : ℕ) (d : Depth) :
    imbalance_calculate depth_levels d =
      if d.best_bid_tick = I64_MIN ∨ d.best_ask_tick = I64_MAX then 0
      else if aggBidVolume d depth_levels + aggAskVolume d depth_levels = 0 then 0
      else (aggBidVolume d depth_levels - aggAskVolume d depth_levels) /
        (aggBidVolume d depth_levels + aggAskVolume d depth_levels) := rfl

theorem micro_price_calculate_cases (depth_levels : ℕ) (d : Depth) :
    micro_price_calculate depth_levels d =
      if d.best_bid_tick = I64_MIN ∨ d.best_ask_tick = I64_MAX then 0
      else if aggBidVolume d depth_levels + aggAskVolume d depth_levels = 0 then
        ((d.best_bid_tick : ℚ) + (d.best_ask_tick : ℚ)) * d.tick_size / 2
      else
        (aggBidVolume d depth_levels * ((d.best_ask_tick : ℚ) * d.tick_size) +
         aggAskVolume d depth_levels * ((d.best_bid_tick : ℚ) * d.tick_size)) /
          (aggBidVolume d depth_levels + aggAskVolume d depth_levels) := rfl

/-- C6: the order-book imbalance equals
`(bid_volume - ask_volume) / (bid_volume + ask_volume)` over the
aggregated volumes, always lies in [-1, 1], is 0 on an invalid book, 0
when the total volume is zero, 0 when bid and ask volumes are equal, +1
when the ask volume is 0 and the bid volume positive, and -1 when the
bid volume is 0 and the ask volume positive. -/
theorem C6_orderbook_imbalance (d : Depth) (depth_levels : ℕ) :
    (-1 ≤ imbalance_calculate depth_levels d ∧
      imbalance_calculate depth_levels d ≤ 1) ∧
    (d.best_bid_tick = I64_MIN ∨ d.best_ask_tick = I64_MAX →
      imbalance_calculate depth_levels d = 0) ∧
    (aggBidVolume d depth_levels + aggAskVolume d depth_levels = 0 →
      imbalance_calculate depth_levels d = 0) ∧
    (aggBidVolume d depth_levels = aggAskVolume d depth_levels →
      imbalance_calculate depth_levels d = 0) ∧
    (¬(d.best_bid_tick = I64_MIN ∨ d.best_ask_tick = I64_MAX) →
      aggBidVolume d depth_levels + aggAskVolume d depth_levels ≠ 0 →
      imbalance_calculate depth_levels d =
        (aggBidVolume d depth_levels - aggAskVolume d depth_levels) /
          (aggBidVolume d depth_levels + aggAskVolume d depth_levels)) ∧
    (¬(d.best_bid_tick = I64_MIN ∨ d.best_ask_tick = I64_MAX) →
      aggAskVolume d depth_levels = 0 → 0 < aggBidVolume d depth_levels →
      imbalance_calculate depth_levels d = 1) ∧
    (¬(d.best_bid_tick = I64_MIN ∨ d.best_ask_tick = I64_MAX) →
      aggBidVolume d depth_levels = 0 → 0 < aggAskVolume d depth_levels →
      imbalance_calculate depth_levels d = -1) := by
  have hbn : 0 ≤ aggBidVolume d depth_levels := aggBidVolume_nonneg d depth_levels
  have han : 0 ≤ aggAskVolume d depth_levels := aggAskVolume_nonneg d depth_levels
  by_cases hv : d.best_bid_tick = I64_MIN ∨ d.best_ask_tick = I64_MAX
  · have h0 : imbalance_calculate depth_levels d = 0 := by
      rw [imbalance_calculate_cases, if_pos hv]
    exact ⟨by rw [h0]; norm_num, fun _ => h0, fun _ => h0, fun _ => h0,
      fun hvn _ => absurd hv hvn, fun hvn _ _ => absurd hv hvn,
      fun hvn _ _ => absurd hv hvn⟩
  · by_cases hs : aggBidVolume d depth_levels + aggAskVolume d depth_levels = 0
    · have h0 : imbalance_calculate depth_levels d = 0 := by
        rw [imbalance_calculate_cases, if_neg hv, if_pos hs]
      have hb0 : aggBidVolume d depth_levels = 0 := by linarith
      have ha0 : aggAskVolume d depth_levels = 0 := by linarith
      exact ⟨by rw [h0]; norm_num, fun _ => h0, fun _ => h0, fun _ => h0,
        fun _ hsn => absurd hs hsn,
        fun _ _ hbp => absurd hb0 hbp.ne',
        fun _ _ hap => absurd ha0 hap.ne'⟩
    · have hpos : 0 < aggBidVolume d depth_levels + aggAskVolume d depth_levels :=
        lt_of_le_of_ne (by linarith) (Ne.symm hs)
      have heq : imbalance_calculate depth_levels d =
          (aggBidVolume d depth_levels - aggAskVolume d depth_levels) /
            (aggBidVolume d depth_levels + aggAskVolume d depth_levels) := by
        rw [imbalance_calculate_cases, if_neg hv, if_neg hs]
      refine ⟨⟨?_, ?_⟩, fun hvv => absurd hvv hv, fun hss => absurd hss hs,
        ?_, fun _ _ => heq, ?_, ?_⟩
      · rw [heq, le_div_iff₀ hpos]
        linarith
      · rw [heq, div_le_one hpos]
        linarith
      · intro hba
        rw [heq, hba, sub_self, zero_div]
      · intro _ ha0 hbp
        rw [heq, ha0, add_zero, sub_zero, div_self hbp.ne']
      · intro _ hb0 hap
        rw [heq, hb0, zero_add, zero_sub, neg_div, div_self hap.ne']

theorem aggBidVolume_bidOnlyDepth : aggBidVolume bidOnlyDepth 2 = 3 := by
  norm_num [aggBidVolume, bidOnlyDepth, List.range_succ, List.foldl]

theorem aggAskVolume_bidOnlyDepth : aggAskVolume bidOnlyDepth 2 = 0 := by
  norm_num [aggAskVolume, bidOnlyDepth, List.range_succ, List.foldl]

/-- C6 witness: on the bids-only book (aggregated bid volume 3, ask
volume 0) the imbalance is +1. -/
theorem C6_orderbook_imbalance_witness :
    imbalance_calculate 2 bidOnlyDepth = 1 :=
  (C6_orderbook_imbalance bidOnlyDepth 2).2.2.2.2.2.1
    (by norm_num [bidOnlyDepth, I64_MIN, I64_MAX])
    aggAskVolume_bidOnlyDepth
    (by rw [aggBidVolume_bidOnlyDepth]; norm_num)

/-- C7: over a valid book the micro-price equals
`(bid_volume * best_ask_price + ask_volume * best_bid_price) /
(bid_volume + ask_volume)` with volumes aggregated over `depth_levels`
levels, and it falls back to the simple midpoint when both aggregated
volumes are zero. -/
theorem C7_micro_price (d : Depth) (depth_levels : ℕ)
    (hbv : d.best_bid_tick ≠ I64_MIN) (hav : d.best_ask_tick ≠ I64_MAX) :
    (aggBidVolume d depth_levels + aggAskVolume d depth_levels ≠ 0 →
      micro_price_calculate depth_levels d =
        (aggBidVolume d depth_levels * ((d.best_ask_tick : ℚ) * d.tick_size) +
         aggAskVolume d depth_levels * ((d.best_bid_tick : ℚ) * d.tick_size)) /
          (aggBidVolume d depth_levels + aggAskVolume d depth_levels)) ∧
    (aggBidVolume d depth_levels = 0 → aggAskVolume d depth_levels = 0 →
      micro_price_calculate depth_levels d =
        ((d.best_bid_tick : ℚ) * d.tick_size + (d.best_ask_tick : ℚ) * d.tick_size) / 2) := by
  have hv : ¬(d.best_bid_tick = I64_MIN ∨ d.best_ask_tick = I64_MAX) := by
    push_neg
    exact ⟨hbv, hav⟩
  constructor
  · intro hs
    rw [micro_price_calculate_cases, if_neg hv, if_neg hs]
  · intro hb0 ha0
    rw [micro_price_calculate_cases, if_neg hv, if_pos (by rw [hb0, ha0, add_zero])]
    ring

theorem aggBidVolume_exampleDepth : aggBidVolume exampleDepth 2 = 2 := by
  norm_num [aggBidVolume, exampleDepth, List.range_succ, List.foldl]

theorem aggAskVolume_exampleDepth : aggAskVolume exampleDepth 2 = 4 := by
  norm_num [aggAskVolume, exampleDepth, List.range_succ, List.foldl]

/-- C7 witness: the weighted micro-price formula instantiated on the
example book (bid volume 2, ask volume 4). -/
theorem C7_micro_price_witness :
    micro_price_calculate 2 exampleDepth =
      (aggBidVolume exampleDepth 2 * ((exampleDepth.best_ask_tick : ℚ) * exampleDepth.tick_size) +
       aggAskVolume exampleDepth 2 * ((exampleDepth.best_bid_tick : ℚ) * exampleDepth.tick_size)) /
        (aggBidVolume exampleDepth 2 + aggAskVolume exampleDepth 2) :=
  (C7_micro_price exampleDepth 2 (by norm_num [exampleDepth, I64_MIN])
      (by norm_num [exampleDepth, I64_MAX])).1
    (by rw [aggBidVolume_exampleDepth, aggAskVolume_exampleDepth]; norm_num)

/-- C4 counterexample: with reservation 100, half-spread 1, tick 0.01,
imbalance 1, layer 0, the code computes bid 99.1 (the imbalance
adjustment is ADDED to the bid), while the claim's formula gives bid
98.9 (offset subtracted). -/
theorem C4_offset_sign_counterexample :
    (mm_runner_layer_quote 100 1 (1/100) 1 1 0).bid_price = 991/10 ∧
    (spec_layer_quote 100 1 (1/100) 1 1 0).bid_price = 989/10 ∧
    (mm_runner_layer_quote 100 1 (1/100) 1 1 0).bid_price ≠
      (spec_layer_quote 100 1 (1/100) 1 1 0).bid_price := by
  refine ⟨?_, ?_, ?_⟩ <;>
    norm_num [mm_runner_layer_quote, spec_layer_quote]

/-- C4 (amended): for every layer L the market-maker runner's placement
and refill compute bid = reservation − half_spread − L·tick + offset and
ask = reservation + half_spread + L·tick − offset with
offset = imbalance·half_spread·0.1 (the offset is added to the bid and
subtracted from the ask), and layer size = base_size/(1 + 0.5·L);
`OrderManager::place_layered_orders` uses the same shape with
coefficient 0.2 and a configurable layer spacing; the two sides agree
with the claim's formula exactly when the imbalance is 0. -/
theorem C4_layered_quotes (reservation_price half_spread tick_size
    imbalance order_size spacing : ℚ) (layer : ℕ) :
    (mm_runner_layer_quote reservation_price half_spread tick_size
        imbalance order_size layer).bid_price
      = reservation_price - half_spread - (layer : ℚ) * tick_size
          + imbalance * half_spread * (1/10) ∧
    (mm_runner_layer_quote reservation_price half_spread tick_size
        imbalance order_size layer).ask_price
      = reservation_price + half_spread + (layer : ℚ) * tick_size
          - imbalance * half_spread * (1/10) ∧
    (mm_runner_layer_quote reservation_price half_spread tick_size
        imbalance order_size layer).size
      = order_size / (1 + (1/2) * (layer : ℚ)) ∧
    (order_manager_layer_quote reservation_price half_spread tick_size
        spacing imbalance order_size layer).bid_price
      = reservation_price - half_spread - (layer : ℚ) * spacing * tick_size
          + imbalance * half_spread * (1/5) ∧
    (order_manager_layer_quote reservation_price half_spread tick_size
        spacing imbalance order_size layer).ask_price
      = reservation_price + half_spread + (layer : ℚ) * spacing * tick_size
          - imbalance * half_spread * (1/5) ∧
    (order_manager_layer_quote reservation_price half_spread tick_size
        spacing imbalance order_size layer).size
      = order_size / (1 + (1/2) * (layer : ℚ)) ∧
    (imbalance = 0 →
      mm_runner_layer_quote reservation_price half_spread tick_size
          imbalance order_size layer
        = spec_layer_quote reservation_price half_spread tick_size
            imbalance order_size layer) := by
  refine ⟨?_, ?_, ?_, ?_, ?_, ?_, ?_⟩
  · simp only [mm_runner_layer_quote]
    ring
  · simp only [mm_runner_layer_quote]
    ring
  · simp only [mm_runner_layer_quote]
    ring
  · simp only [order_manager_layer_quote]
    ring
  · simp only [order_manager_layer_quote]
    ring
  · simp only [order_manager_layer_quote]
    ring
  · intro h0
    simp only [mm_runner_layer_quote, spec_layer_quote, h0,
      LayerQuote.mk.injEq]
    refine ⟨by ring, by ring, by ring⟩

/-- C4 witness: at imbalance 0 the code's quote and the spec's formula
coincide, instantiated at reservation 100, half-spread 1, tick 0.01,
layer 0. -/
theorem C4_layered_quotes_witness :
    mm_runner_layer_quote 100 1 (1/100) 0 1 0 = spec_layer_quote 100 1 (1/100) 0 1 0 :=
  (C4_layered_quotes 100 1 (1/100) 0 1 1 0).2.2.2.2.2.2 rfl

theorem filter_ne_idem (l : List (ℕ × OrderInfo)) (order_id : ℕ) :
    (l.filter (fun p => p.1 ≠ order_id)).filter (fun p => p.1 ≠ order_id)
      = l.filter (fun p => p.1 ≠ order_id) := by
  rw [List.filter_eq_self]
  intro a ha
  exact (List.mem_filter.mp ha).2

theorem any_filter_ne (l : List (ℕ × OrderInfo)) (order_id : ℕ) :
    (l.filter (fun p => p.1 ≠ order_id)).any (fun p => p.1 = order_id)
      = false := by
  rw [List.any_eq_false]
  intro a ha
  simpa using (List.mem_filter.mp ha).2

theorem mark_filled_found (t : OrderTracker) (order_id : ℕ) (info : OrderInfo)
    (h : t.active_orders.find? (fun p => p.1 = order_id)
          = some (order_id, info)) :
    t.mark_filled order_id =
      (some info,
       { active_orders := t.active_orders.filter (fun p => p.1 ≠ order_id)
         filled_count := t.filled_count + 1
         total_buy_volume :=
           if info.side = OrderSide.Buy then t.total_buy_volume + info.qty
           else t.total_buy_volume
         total_sell_volume :=
           if info.side = OrderSide.Sell then t.total_sell_volume + info.qty
           else t.total_sell_volume }) := by
  unfold OrderTracker.mark_filled
  rw [h]

theorem register_find_self (t : OrderTracker) (order_id : ℕ)
    (side : OrderSide) (price qty : ℚ) (layer : ℕ) :
    (t.register_order order_id side price qty layer).active_orders.find?
        (fun p => p.1 = order_id)
      = some (order_id, ⟨order_id, side, price, qty, layer⟩) := by
  simp only [OrderTracker.register_order]
  exact List.find?_cons_of_pos _ (by simp)

theorem register_mark_filled_fst (t : OrderTracker) (order_id : ℕ)
    (side : OrderSide) (price qty : ℚ) (layer : ℕ) :
    ((t.register_order order_id side price qty layer).mark_filled order_id).1
      = some ⟨order_id, side, price, qty, layer⟩ := by
  rw [mark_filled_found _ order_id _
    (register_find_self t order_id side price qty layer)]

theorem register_mark_filled_active (t : OrderTracker) (order_id : ℕ)
    (side : OrderSide) (price qty : ℚ) (layer : ℕ) :
    (((t.register_order order_id side price qty layer).mark_filled
        order_id).2).active_orders
      = t.active_orders.filter (fun p => p.1 ≠ order_id) := by
  rw [mark_filled_found _ order_id _
    (register_find_self t order_id side price qty layer)]
  show ((order_id, (⟨order_id, side, price, qty, layer⟩ : OrderInfo)) ::
      t.active_orders.filter (fun p => p.1 ≠ order_id)).filter
        (fun p => p.1 ≠ order_id)
    = t.active_orders.filter (fun p => p.1 ≠ order_id)
  rw [List.filter_cons]
  simp [filter_ne_idem]

theorem register_mark_filled_count (t : OrderTracker) (order_id : ℕ)
    (side : OrderSide) (price qty : ℚ) (layer : ℕ) :
    (((t.register_order order_id side price qty layer).mark_filled
        order_id).2).filled_count = t.filled_count + 1 := by
  rw [mark_filled_found _ order_id _
    (register_find_self t order_id side price qty layer)]
  rfl

theorem register_mark_filled_buy (t : OrderTracker) (order_id : ℕ)
    (side : OrderSide) (price qty : ℚ) (layer : ℕ) :
    (((t.register_order order_id side price qty layer).mark_filled
        order_id).2).total_buy_volume
      = if side = OrderSide.Buy then t.total_buy_volume + qty
        else t.total_buy_volume := by
  rw [mark_filled_found _ order_id _
    (register_find_self t order_id side price qty layer)]
  rfl

theorem register_mark_filled_sell (t : OrderTracker) (order_id : ℕ)
    (side : OrderSide) (price qty : ℚ) (layer : ℕ) :
    (((t.register_order order_id side price qty layer).mark_filled
        order_id).2).total_sell_volume
      = if side = OrderSide.Sell then t.total_sell_volume + qty
        else t.total_sell_volume := by
  rw [mark_filled_found _ order_id _
    (register_find_self t order_id side price qty layer)]
  rfl

/-- C8: registering an order and then marking it filled returns the
registered record, bumps `filled_count` by exactly one, adds the
quantity to the matching side's cumulative volume (leaving the other
side untouched), leaves `has_order` false, and a subsequent
`register_order` under the same id succeeds again with the fresh
record. -/
theorem C8_tracker_fill_refill_cycle (t : OrderTracker) (order_id : ℕ)
    (side : OrderSide) (price qty : ℚ) (layer : ℕ)
    (side2 : OrderSide) (price2 qty2 : ℚ) (layer2 : ℕ) :
    ((t.register_order order_id side price qty layer).mark_filled order_id).1
      = some ⟨order_id, side, price, qty, layer⟩ ∧
    ((((t.register_order order_id side price qty layer).mark_filled
        order_id).2).get_stats).1 = ((t.get_stats).1) + 1 ∧
    (side = OrderSide.Buy →
      (((t.register_order order_id side price qty layer).mark_filled
          order_id).2).total_buy_volume = t.total_buy_volume + qty ∧
      (((t.register_order order_id side price qty layer).mark_filled
          order_id).2).total_sell_volume = t.total_sell_volume) ∧
    (side = OrderSide.Sell →
      (((t.register_order order_id side price qty layer).mark_filled
          order_id).2).total_sell_volume = t.total_sell_volume + qty ∧
      (((t.register_order order_id side price qty layer).mark_filled
          order_id).2).total_buy_volume = t.total_buy_volume) ∧
    (((t.register_order order_id side price qty layer).mark_filled
        order_id).2).has_order order_id = false ∧
    ((((t.register_order order_id side price qty layer).mark_filled
        order_id).2).register_order order_id side2 price2 qty2
          layer2).has_order order_id = true ∧
    ((((t.register_order order_id side price qty layer).mark_filled
        order_id).2).register_order order_id side2 price2 qty2
          layer2).active_orders.find? (fun p => p.1 = order_id)
      = some (order_id, ⟨order_id, side2, price2, qty2, layer2⟩) := by
  refine ⟨register_mark_filled_fst t order_id side price qty layer,
    ?_, ?_, ?_, ?_, ?_, ?_⟩
  · exact register_mark_filled_count t order_id side price qty layer
  · intro h
    subst h
    constructor
    · rw [register_mark_filled_buy]
      simp
    · rw [register_mark_filled_sell]
      simp
  · intro h
    subst h
    constructor
    · rw [register_mark_filled_sell]
      simp
    · rw [register_mark_filled_buy]
      simp
  · simp only [OrderTracker.has_order]
    rw [register_mark_filled_active]
    exact any_filter_ne t.active_orders order_id
  · simp [OrderTracker.register_order, OrderTracker.has_order]
  · exact register_find_self _ order_id side2 price2 qty2 layer2

/-- C8 witness: the fill cycle instantiated on the fresh tracker with a
Buy order of quantity 2 under id 7. -/
theorem C8_tracker_fill_refill_cycle_witness :
    ((OrderTracker.new.register_order 7 OrderSide.Buy 1 2 0).mark_filled 7).1
      = some ⟨7, OrderSide.Buy, 1, 2, 0⟩ ∧
    (((OrderTracker.new.register_order 7 OrderSide.Buy 1 2 0).mark_filled
        7).2).total_buy_volume = OrderTracker.new.total_buy_volume + 2 :=
  ⟨(C8_tracker_fill_refill_cycle OrderTracker.new 7 OrderSide.Buy 1 2 0
      OrderSide.Sell 3 4 1).1,
   ((C8_tracker_fill_refill_cycle OrderTracker.new 7 OrderSide.Buy 1 2 0
      OrderSide.Sell 3 4 1).2.2.1 rfl).1⟩

/-- C9: marking an id that is not registered returns `None` and leaves
the tracker completely unchanged, so the stats and the active-order set
are what they were before the call. -/
theorem C9_mark_filled_absent_atomic (t : OrderTracker) (order_id : ℕ)
    (h : t.has_order order_id = false) :
    t.mark_filled order_id = (none, t) ∧
    ((t.mark_filled order_id).2).get_stats = t.get_stats ∧
    ((t.mark_filled order_id).2).active_orders = t.active_orders := by
  have hfind : t.active_orders.find? (fun p => p.1 = order_id) = none := by
    rw [List.find?_eq_none]
    intro a ha
    exact List.any_eq_false.mp h a ha
  have hmf : t.mark_filled order_id = (none, t) := by
    unfold OrderTracker.mark_filled
    rw [hfind]
  exact ⟨hmf, by rw [hmf], by rw [hmf]⟩

/-- C9 witness: marking id 0 on the fresh tracker. -/
theorem C9_mark_filled_absent_atomic_witness :
    OrderTracker.new.mark_filled 0 = (none, OrderTracker.new) ∧
    ((OrderTracker.new.mark_filled 0).2).get_stats = OrderTracker.new.get_stats ∧
    ((OrderTracker.new.mark_filled 0).2).active_orders
      = OrderTracker.new.active_orders :=
  C9_mark_filled_absent_atomic OrderTracker.new 0 rfl

theorem adjust_order_size_eq (max_inventory base_size inventory : ℚ) :
    adjust_order_size max_inventory base_size inventory =
      if max_inventory = 0 then base_size
      else base_size * (1 - min (|inventory| / max_inventory) 1 * (1/2)) := rfl

/-- C10 counterexample: with `max_inventory = -1`, `base_size = 1`,
`inventory = 1` the result is 1.5, above `base_size`, so the claimed
bound does not hold for every tracker state; it needs
`0 ≤ max_inventory`. -/
theorem C10_adjust_size_counterexample :
    adjust_order_size (-1) 1 1 = 3/2 ∧ ¬(adjust_order_size (-1) 1 1 ≤ 1) := by
  have h : adjust_order_size (-1) 1 1 = 3/2 := by
    rw [adjust_order_size_eq]
    norm_num [min_def]
  exact ⟨h, by rw [h]; norm_num⟩

/-- C10 (amended): `adjust_order_size` is total and never divides by
zero: when `max_inventory = 0` it returns `base_size` unchanged,
otherwise it returns
`base_size * (1 - min(|inventory| / max_inventory, 1) * 0.5)`, and for
nonnegative `base_size` and nonnegative `max_inventory` the result lies
between `0.5 * base_size` and `base_size`. -/
theorem C10_adjust_order_size_total (max_inventory base_size inventory : ℚ) :
    (max_inventory = 0 →
      adjust_order_size max_inventory base_size inventory = base_size) ∧
    (max_inventory ≠ 0 →
      adjust_order_size max_inventory base_size inventory
        = base_size * (1 - min (|inventory| / max_inventory) 1 * (1/2))) ∧
    (0 ≤ base_size → 0 ≤ max_inventory →
      base_size / 2 ≤ adjust_order_size max_inventory base_size inventory ∧
      adjust_order_size max_inventory base_size inventory ≤ base_size) := by
  rw [adjust_order_size_eq]
  split_ifs with h
  · exact ⟨fun _ => rfl, fun hn => absurd h hn,
      fun hb _ => ⟨by linarith, le_rfl⟩⟩
  · refine ⟨fun h0 => absurd h0 h, fun _ => rfl, fun hb hmi => ?_⟩
    have hmipos : 0 < max_inventory := lt_of_le_of_ne hmi (Ne.symm h)
    have hfrac0 : 0 ≤ min (|inventory| / max_inventory) 1 :=
      le_min (div_nonneg (abs_nonneg _) (le_of_lt hmipos)) zero_le_one
    have hfrac1 : min (|inventory| / max_inventory) 1 ≤ 1 := min_le_right _ _
    constructor
    · have hlo : (1:ℚ)/2 ≤ 1 - min (|inventory| / max_inventory) 1 * (1/2) := by
        linarith
      calc base_size / 2 = base_size * (1/2) := by ring
        _ ≤ base_size * (1 - min (|inventory| / max_inventory) 1 * (1/2)) :=
            mul_le_mul_of_nonneg_left hlo hb
    · have hhi : 1 - min (|inventory| / max_inventory) 1 * (1/2) ≤ 1 := by
        linarith
      calc base_size * (1 - min (|inventory| / max_inventory) 1 * (1/2))
          ≤ base_size * 1 := mul_le_mul_of_nonneg_left hhi hb
        _ = base_size := mul_one _

/-- C10 witness: the zero-guard at max_inventory 0 and the size bound at
max_inventory 5, base 5, inventory 100. -/
theorem C10_adjust_order_size_total_witness :
    adjust_order_size 0 7 3 = 7 ∧
    ((5:ℚ) / 2 ≤ adjust_order_size 5 5 100 ∧ adjust_order_size 5 5 100 ≤ 5) :=
  ⟨(C10_adjust_order_size_total 0 7 3).1 rfl,
   (C10_adjust_order_size_total 5 5 100).2.2 (by norm_num) (by norm_num)⟩

end HftBacktest
